import Mathlib

/-!
Shallow embedding of `src/autopr/services/platform_service.py`
(class `GitHubPlatformService`), the pull-request publishing orchestrator.

The HTTP transport is abstracted into an `Env` of response functions, keyed
by the request's distinguishing arguments (one key per endpoint); every
method of the class becomes a pure function of the environment and the
instance state `GHState` (the two mutable fields `_drafts_supported` and
`_pr_node_id`).  Python exceptions become `Except Err`; where a method's
network requests matter to the specification the function also returns the
list of requests it issued, in order.
-/

/-- Minimal JSON value model for the webhook payloads and platform
response bodies the orchestrator inspects. -/
inductive JVal where
  | null : JVal
  | str (s : String) : JVal
  | num (n : Int) : JVal
  | arr (xs : List JVal) : JVal
  | obj (fields : List (String × JVal)) : JVal

/-- Python exceptions raised by the orchestrator's code paths. -/
inductive Err where
  | runtimeError (msg : String)
  | keyError (key : String)
  | jsonDecodeError
  | assertionError
  | httpError
  | typeError
  | indexError
deriving DecidableEq

/-- A `d[k]` dictionary subscript: `KeyError` when the key is absent,
`TypeError` when the value is not an object. -/
def jGet (v : JVal) (k : String) : Except Err JVal :=
  match v with
  | .obj fs =>
      match fs.lookup k with
      | some x => .ok x
      | none => .error (.keyError k)
  | _ => .error .typeError

/-- A `k in d` membership test on a payload dictionary. -/
def JVal.hasKey (v : JVal) (k : String) : Bool :=
  match v with
  | .obj fs => (fs.lookup k).isSome
  | _ => false

/-- A value used where a string is required (attribute access such as
`.startswith`/`.lower`, or a string-typed model field). -/
def asStr (v : JVal) : Except Err String :=
  match v with
  | .str s => .ok s
  | _ => .error .typeError

/-- A value used where an integer is required. -/
def asInt (v : JVal) : Except Err Int :=
  match v with
  | .num n => .ok n
  | _ => .error .typeError

/-- Python truthiness of a JSON value. -/
def pyTruthy : JVal → Bool
  | .null => false
  | .str s => !(s == "")
  | .num n => !(n = 0)
  | .arr xs => !(xs.isEmpty)
  | .obj fs => !(fs.isEmpty)

/-- The expression `v or ""` applied to a payload field. -/
def pyOrEmpty (v : JVal) : JVal :=
  if pyTruthy v then v else .str ""

/-- Body text of a platform error response, as seen by `_is_draft_error`:
either not JSON at all (`json.loads` raises), or a JSON object whose
optional `message` field is the part inspected. -/
inductive RespText where
  | invalid : RespText
  | obj (message : Option String) : RespText

/-- Response to a PR-creation POST. -/
structure CreateResp where
  status : Nat
  text : RespText
  number : Nat

/-- Response to a comment-publication POST. -/
structure CommentResp where
  status : Nat
  id : String

/-- Response to the PR node-id GET. -/
structure NodeIdResp where
  status : Nat
  node_id : String

/-- A response of which only the status code is inspected. -/
structure HttpResp where
  status : Nat

/-- Response to the per-issue comments GET inside `_extract_issue`. -/
structure CommentsResp where
  status : Nat
  body : JVal

/-- Response to the issue-listing GET. -/
structure IssuesResp where
  status : Nat
  body : List JVal

/-- Response to the open-pulls GET of `find_existing_pr`. -/
structure PullsResp where
  status : Nat
  body : List JVal

/-- The transport environment: one deterministic response function per
endpoint, keyed by the request's distinguishing arguments.  `createResp`
is keyed by the index of the creation attempt within one `create_pr`
call (0 = first POST, 1 = the draft-fallback retry). -/
structure Env where
  createResp : Nat → CreateResp
  commentResp : String → Nat → CommentResp
  nodeIdResp : Nat → NodeIdResp
  graphqlResp : Bool → String → HttpResp
  patchResp : Nat → List (String × String) → HttpResp
  updateCommentResp : String → String → HttpResp
  issuesResp : String → IssuesResp
  commentsResp : String → CommentsResp
  pullsResp : String → String → PullsResp

/-- The mutable instance state of `GitHubPlatformService`. -/
structure GHState where
  drafts_supported : Bool
  pr_node_id : Option String
deriving DecidableEq

/-- State set up by `__init__`: drafts assumed supported, no cached node id. -/
def initState : GHState := { drafts_supported := true, pr_node_id := none }

/-- Character-list prefix test used by the substring search. -/
def isPrefixChars : List Char → List Char → Bool
  | [], _ => true
  | _ :: _, [] => false
  | a :: as, b :: bs => a == b && isPrefixChars as bs

/-- Character-list substring test used to model Python's `in` on strings. -/
def containsSub (pat : List Char) : List Char → Bool
  | [] => isPrefixChars pat []
  | c :: rest => isPrefixChars pat (c :: rest) || containsSub pat rest

/-- Python's `pat in hay` substring test. -/
def strContains (hay pat : String) : Bool :=
  containsSub pat.toList hay.toList

/-- The error-message phrase whose presence identifies the
drafts-not-supported rejection. -/
def draftPhrase : String := "draft pull requests are not supported"

/-- ASCII lowercasing of a string, character by character, modelling the
`.lower()` call on the inspected error message. -/
def lowerStr (s : String) : String := String.mk (s.toList.map Char.toLower)

/-- `_is_draft_error`: parse the response text as JSON (raising on invalid
JSON), test whether its `message` contains the draft phrase, and if so
clear the instance's draft-support flag. -/
def is_draft_error (st : GHState) (t : RespText) : Except Err (Bool × GHState) :=
  match t with
  | .invalid => .error .jsonDecodeError
  | .obj message =>
      let b := match message with
        | some m => strContains (lowerStr m) draftPhrase
        | none => false
      if b then .ok (true, { st with drafts_supported := false })
      else .ok (false, st)

/-- Pure predicate: does this response text match the drafts-not-supported
signature that `_is_draft_error` looks for (without the state effect)? -/
def sigMatch : RespText → Bool
  | .invalid => false
  | .obj none => false
  | .obj (some m) => strContains (lowerStr m) draftPhrase

/-- Identifier of one published PR body part: the sentinel marks the
primary PR body; every other entry is a real comment id. -/
inductive CommentId where
  | sentinel : CommentId
  | id (s : String) : CommentId
deriving DecidableEq

/-- `publish_comment`: POST the comment; on a 201 return the new
comment's id, otherwise log and return `None`. -/
def publish_comment (env : Env) (text : String) (issue_number : Nat) : Option String :=
  let r := env.commentResp text issue_number
  if r.status = 201 then some r.id else none

/-- The comment loop at the end of `create_pr`: publish each remaining
body in order, raising as soon as one publication yields no id. -/
def publishAll (env : Env) (pr : Nat) : List String → Except Err (List CommentId)
  | [] => .ok []
  | b :: rest =>
      match publish_comment env b pr with
      | none => .error (.runtimeError "Failed to publish progress comment")
      | some i =>
          match publishAll env pr rest with
          | .error e => .error e
          | .ok ids => .ok (.id i :: ids)

/-- The JSON body of a PR-creation POST; `draft = none` means the field
is absent from the dictionary. -/
structure PRCreateData where
  head : String
  base : String
  title : String
  body : String
  draft : Option String
deriving DecidableEq

/-- The request data `create_pr` builds before its first POST. -/
def firstData (st : GHState) (title body0 : String) (draft : Bool)
    (head_branch base_branch : String) : PRCreateData :=
  { head := head_branch
    base := base_branch
    title := title
    body := body0
    draft := if st.drafts_supported then some (if draft then "true" else "false") else none }

/-- Tail of `create_pr` after a successful creation: publish the
remaining bodies as comments and assemble the id list behind the
sentinel. -/
def afterSuccess (env : Env) (st : GHState) (pr : Nat) (bodies : List String)
    (trace : List PRCreateData) :
    Except Err (Nat × List CommentId) × GHState × List PRCreateData :=
  match publishAll env pr bodies.tail with
  | .error e => (.error e, st, trace)
  | .ok ids => (.ok (pr, CommentId.sentinel :: ids), st, trace)

/-- `create_pr`: build the request (with a draft field only while drafts
are believed supported), POST it, on the drafts-not-supported signature
delete the draft field and retry once, on any other rejection raise; on
success publish the remaining bodies as comments.  Returns the result,
the final instance state, and the creation POSTs issued, in order. -/
def create_pr (env : Env) (st : GHState) (title : String) (bodies : List String)
    (draft : Bool) (head_branch base_branch : String) :
    Except Err (Nat × List CommentId) × GHState × List PRCreateData :=
  match bodies with
  | [] => (.error .indexError, st, [])
  | body0 :: _ =>
      let data := firstData st title body0 draft head_branch base_branch
      let resp := env.createResp 0
      if resp.status = 201 then
        afterSuccess env st resp.number bodies [data]
      else
        match is_draft_error st resp.text with
        | .error e => (.error e, st, [data])
        | .ok (b, st1) =>
            if b then
              match data.draft with
              | none => (.error (.keyError "draft"), st1, [data])
              | some _ =>
                  let data2 := { data with draft := none }
                  let resp2 := env.createResp 1
                  if resp2.status = 201 then
                    afterSuccess env st1 resp2.number bodies [data, data2]
                  else
                    (.error (.runtimeError "Failed to create pull request"), st1, [data, data2])
            else
              (.error (.runtimeError "Failed to create pull request"), st1, [data])

/-- `_patch_pr`: PATCH the PR; the source logs a non-200 response and
falls through, returning normally in both branches. -/
def patch_pr (env : Env) (pr_number : Nat) (data : List (String × String)) : Except Err Unit :=
  let r := env.patchResp pr_number data
  if r.status = 200 then .ok () else .ok ()

/-- `update_pr_body`. -/
def update_pr_body (env : Env) (pr_number : Nat) (body : String) : Except Err Unit :=
  patch_pr env pr_number [("body", body)]

/-- `update_pr_title`. -/
def update_pr_title (env : Env) (pr_number : Nat) (title : String) : Except Err Unit :=
  patch_pr env pr_number [("title", title)]

/-- `update_comment`: PATCH the comment; the source logs a non-200
response and returns normally in both branches. -/
def update_comment (env : Env) (comment_id : String) (body : String) : Except Err Unit :=
  let r := env.updateCommentResp comment_id body
  if r.status = 200 then .ok () else .ok ()

/-- `_get_pull_request_node_id`: GET the PR, returning its `node_id` on a
200 and raising otherwise. -/
def get_pull_request_node_id (env : Env) (pr_number : Nat) : Except Err String :=
  let r := env.nodeIdResp pr_number
  if r.status = 200 then .ok r.node_id
  else .error (.runtimeError "Failed to get pull request node id")

/-- A network request issued by `set_pr_draft_status`. -/
inductive Request where
  | getNodeId (pr : Nat) : Request
  | draftMutation (is_draft : Bool) (node_id : String) : Request
deriving DecidableEq

/-- The GraphQL mutation at the end of `set_pr_draft_status`: on a 200
return; otherwise log and clear the draft-support flag (still returning
normally). -/
def draftMutationStep (env : Env) (st : GHState) (nid : String) (is_draft : Bool)
    (trace : List Request) : Except Err Unit × GHState × List Request :=
  let r := env.graphqlResp is_draft nid
  if r.status = 200 then (.ok (), st, trace ++ [.draftMutation is_draft nid])
  else (.ok (), { st with drafts_supported := false }, trace ++ [.draftMutation is_draft nid])

/-- `set_pr_draft_status`: no-op when drafts are known unsupported;
otherwise resolve (and cache) the PR node id, then issue the draft /
ready-for-review mutation. -/
def set_pr_draft_status (env : Env) (st : GHState) (pr_number : Nat) (is_draft : Bool) :
    Except Err Unit × GHState × List Request :=
  if !st.drafts_supported then (.ok (), st, [])
  else
    match st.pr_node_id with
    | none =>
        match get_pull_request_node_id env pr_number with
        | .error e => (.error e, st, [.getNodeId pr_number])
        | .ok nid =>
            draftMutationStep env { st with pr_node_id := some nid } nid is_draft
              [.getNodeId pr_number]
    | some nid => draftMutationStep env st nid is_draft []

/-- A sequence of `set_pr_draft_status` calls on one instance, threading
the state and concatenating the request traces (a per-call exception is
delivered to the caller and does not stop later calls). -/
def runDraft (env : Env) (st : GHState) : List (Nat × Bool) → GHState × List Request
  | [] => (st, [])
  | c :: cs =>
      let r := set_pr_draft_status env st c.1 c.2
      let rest := runDraft env r.2.1 cs
      (rest.1, r.2.2 ++ rest.2)

/-- Is this request a node-id fetch? -/
def isFetch : Request → Bool
  | .getNodeId _ => true
  | .draftMutation _ _ => false

/-- Number of node-id fetches in a request trace. -/
def countFetches (tr : List Request) : Nat := tr.countP (fun r => isFetch r)

/-- One message of an issue thread (`autopr.models.artifacts.Message`). -/
structure Message where
  body : String
  author : String
deriving DecidableEq

/-- An issue (`autopr.models.artifacts.Issue`). -/
structure Issue where
  number : Int
  title : String
  author : String
  timestamp : String
  messages : List Message
deriving DecidableEq

/-- A pull request (`autopr.models.artifacts.PullRequest`): an issue plus
branch and base-commit information. -/
structure PullRequest where
  number : Int
  title : String
  author : String
  timestamp : String
  messages : List Message
  head_branch : String
  base_branch : String
  base_commit_sha : String
deriving DecidableEq

/-- The closed set of domain events produced by `parse_event`
(`autopr.models.events.EventUnion`). -/
inductive EventU where
  | push (branch : String) : EventU
  | label (pull_request : Option PullRequest) (issue : Option Issue)
      (label : String) : EventU
  | comment (pull_request : Option PullRequest) (issue : Option Issue)
      (comment : Message) : EventU
deriving DecidableEq

/-- Construction of one `Message` from an issue or comment JSON object:
`Message(body=j['body'] or "", author=j['user']['login'])`. -/
def extractMessage (j : JVal) : Except Err Message :=
  match jGet j "body" with
  | .error e => .error e
  | .ok bv =>
      match jGet j "user" with
      | .error e => .error e
      | .ok uv =>
          match jGet uv "login" with
          | .error e => .error e
          | .ok lv =>
              match asStr (pyOrEmpty bv) with
              | .error e => .error e
              | .ok bs =>
                  match asStr lv with
                  | .error e => .error e
                  | .ok ls => .ok { body := bs, author := ls }

/-- Python's `s.startswith(pre)` prefix test. -/
def strStarts (s pre : String) : Bool := isPrefixChars pre.toList s.toList

/-- The API-host prefix that `comments_url` must carry. -/
def apiPrefix : String := "https://api.github.com/repos/"

/-- The comments loop of `_extract_issue`: one `Message` per comment, in
response order, aborting on the first failure. -/
def extractComments : List JVal → Except Err (List Message)
  | [] => .ok []
  | c :: rest =>
      match extractMessage c with
      | .error e => .error e
      | .ok m =>
          match extractComments rest with
          | .error e => .error e
          | .ok ms => .ok (m :: ms)

/-- `_extract_issue`: read and validate `comments_url`, fetch the
comments (raising on a 4xx/5xx), build message zero from the issue's own
body and one message per comment in order, then assemble the issue. -/
def extract_issue (env : Env) (ij : JVal) : Except Err Issue :=
  match jGet ij "comments_url" with
  | .error e => .error e
  | .ok uv =>
      match asStr uv with
      | .error e => .error e
      | .ok url =>
          if !strStarts url apiPrefix then .error .assertionError
          else
            let resp := env.commentsResp url
            if 400 ≤ resp.status then .error .httpError
            else
              match resp.body with
              | .arr cjs =>
                  match extractMessage ij with
                  | .error e => .error e
                  | .ok body_message =>
                      match extractComments cjs with
                      | .error e => .error e
                      | .ok comments =>
                          match jGet ij "number" with
                          | .error e => .error e
                          | .ok nv =>
                              match asInt nv with
                              | .error e => .error e
                              | .ok num =>
                                  match jGet ij "title" with
                                  | .error e => .error e
                                  | .ok tv =>
                                      match asStr tv with
                                      | .error e => .error e
                                      | .ok ttl =>
                                          match jGet ij "user" with
                                          | .error e => .error e
                                          | .ok uv2 =>
                                              match jGet uv2 "login" with
                                              | .error e => .error e
                                              | .ok lv =>
                                                  match asStr lv with
                                                  | .error e => .error e
                                                  | .ok auth =>
                                                      match jGet ij "updated_at" with
                                                      | .error e => .error e
                                                      | .ok tsv =>
                                                          match asStr tsv with
                                                          | .error e => .error e
                                                          | .ok ts =>
                                                              .ok { number := num, title := ttl,
                                                                    author := auth, timestamp := ts,
                                                                    messages := body_message :: comments }
              | _ => .error .typeError

/-- `_extract_pull_request`: extract the issue part, then add the head
branch, base branch and base commit sha. -/
def extract_pull_request (env : Env) (pj : JVal) : Except Err PullRequest :=
  match extract_issue env pj with
  | .error e => .error e
  | .ok issue =>
      match jGet pj "head" with
      | .error e => .error e
      | .ok hv =>
          match jGet hv "ref" with
          | .error e => .error e
          | .ok hrv =>
              match asStr hrv with
              | .error e => .error e
              | .ok hr =>
                  match jGet pj "base" with
                  | .error e => .error e
                  | .ok bv =>
                      match jGet bv "ref" with
                      | .error e => .error e
                      | .ok brv =>
                          match asStr brv with
                          | .error e => .error e
                          | .ok br =>
                              match jGet bv "sha" with
                              | .error e => .error e
                              | .ok bsv =>
                                  match asStr bsv with
                                  | .error e => .error e
                                  | .ok bs =>
                                      .ok { number := issue.number, title := issue.title,
                                            author := issue.author, timestamp := issue.timestamp,
                                            messages := issue.messages, head_branch := hr,
                                            base_branch := br, base_commit_sha := bs }

/-- `get_issues`: a non-200 listing response is logged and degraded to an
empty list; a 200 response has each element extracted in order. -/
def get_issues (env : Env) (state : String) : Except Err (List Issue) :=
  let r := env.issuesResp state
  if r.status ≠ 200 then .ok []
  else r.body.mapM (extract_issue env)

/-- `find_existing_pr`: on a 200 with a non-empty list return the first
PR's number; any other outcome is logged and yields `none`. -/
def find_existing_pr (env : Env) (head_branch base_branch : String) :
    Except Err (Option Int) :=
  let r := env.pullsResp head_branch base_branch
  if r.status = 200 then
    match r.body with
    | [] => .ok none
    | p :: _ =>
        match jGet p "number" with
        | .error e => .error e
        | .ok nv =>
            match asInt nv with
            | .error e => .error e
            | .ok n => .ok (some n)
  else .ok none

/-- `parse_event`: classify the payload into push / label / comment
events; an unknown action raises `NotImplementedError` (modelled as a
`runtimeError`-like fatal, kept distinct via its message). -/
def parse_event (env : Env) (e : JVal) (event_name : String) : Except Err EventU :=
  if event_name = "push" then
    match jGet e "ref" with
    | .error er => .error er
    | .ok rv =>
        match asStr rv with
        | .error er => .error er
        | .ok r => .ok (.push ((r.splitOn "/").getLastD ""))
  else
    match jGet e "action" with
    | .error er => .error er
    | .ok act =>
        match act with
        | .str a =>
            if a = "labeled" then
              match (if e.hasKey "pull_request" then
                       match jGet e "pull_request" with
                       | .error er => .error er
                       | .ok pv =>
                           match extract_pull_request env pv with
                           | .error er => .error er
                           | .ok pr => .ok (some pr)
                     else .ok none : Except Err (Option PullRequest)) with
              | .error er => .error er
              | .ok prOpt =>
                  match (if e.hasKey "issue" then
                           match jGet e "issue" with
                           | .error er => .error er
                           | .ok iv =>
                               match extract_issue env iv with
                               | .error er => .error er
                               | .ok iss => .ok (some iss)
                         else .ok none : Except Err (Option Issue)) with
                  | .error er => .error er
                  | .ok issOpt =>
                      match jGet e "label" with
                      | .error er => .error er
                      | .ok lv =>
                          match jGet lv "name" with
                          | .error er => .error er
                          | .ok nv =>
                              match asStr nv with
                              | .error er => .error er
                              | .ok nm => .ok (.label prOpt issOpt nm)
            else if a = "comment" then
              match jGet e "issue" with
              | .error er => .error er
              | .ok issv =>
                  match jGet issv "pull_request" with
                  | .error er => .error er
                  | .ok prv =>
                      match extract_pull_request env prv with
                      | .error er => .error er
                      | .ok pr =>
                          match extract_issue env issv with
                          | .error er => .error er
                          | .ok iss =>
                              match jGet e "comment" with
                              | .error er => .error er
                              | .ok cv =>
                                  match jGet cv "body" with
                                  | .error er => .error er
                                  | .ok cbv =>
                                      match jGet cv "user" with
                                      | .error er => .error er
                                      | .ok cuv =>
                                          match jGet cuv "login" with
                                          | .error er => .error er
                                          | .ok clv =>
                                              match asStr cbv with
                                              | .error er => .error er
                                              | .ok cb =>
                                                  match asStr clv with
                                                  | .error er => .error er
                                                  | .ok ca =>
                                                      .ok (.comment (some pr) (some iss)
                                                            { body := cb, author := ca })
            else .error (.runtimeError "Unknown event action")
        | _ => .error (.runtimeError "Unknown event action")

/-- One public operation invoked on the orchestrator instance. -/
inductive Op where
  | opCreatePr (title : String) (bodies : List String) (draft : Bool)
      (head_branch base_branch : String) : Op
  | opSetDraft (pr : Nat) (is_draft : Bool) : Op
  | opUpdatePrTitle (pr : Nat) (t : String) : Op
  | opUpdatePrBody (pr : Nat) (b : String) : Op
  | opUpdateComment (cid b : String) : Op
  | opGetIssues (s : String) : Op
  | opPublishComment (t : String) (n : Nat) : Op
  | opFindExistingPr (hb bb : String) : Op
  | opParseEvent (e : JVal) (name : String) : Op

/-- Effect of one operation on the instance state.  Only `create_pr` and
`set_pr_draft_status` touch the two mutable fields; every other method
reads and writes no instance state. -/
def stepOp (env : Env) (st : GHState) : Op → GHState
  | .opCreatePr t bs d hb bb => (create_pr env st t bs d hb bb).2.1
  | .opSetDraft pr d => (set_pr_draft_status env st pr d).2.1
  | .opUpdatePrTitle _ _ => st
  | .opUpdatePrBody _ _ => st
  | .opUpdateComment _ _ => st
  | .opGetIssues _ => st
  | .opPublishComment _ _ => st
  | .opFindExistingPr _ _ => st
  | .opParseEvent _ _ => st

/-- A whole lifetime of the instance: any sequence of operations, each
with its own transport environment. -/
def run (st : GHState) : List (Env × Op) → GHState
  | [] => st
  | p :: rest => run (stepOp p.1 st p.2) rest

/-! ## Helper lemmas -/

theorem countFetches_append (a b : List Request) :
    countFetches (a ++ b) = countFetches a + countFetches b := by
  simp [countFetches, List.countP_append]

theorem is_draft_error_sig_true (st : GHState) (t : RespText) (h : sigMatch t = true) :
    is_draft_error st t = .ok (true, { st with drafts_supported := false }) := by
  cases t with
  | invalid => simp [sigMatch] at h
  | obj m =>
      cases m with
      | none => simp [sigMatch] at h
      | some s =>
          simp only [sigMatch] at h
          simp [is_draft_error, h]

theorem is_draft_error_sig_false (st : GHState) (t : RespText) (hne : t ≠ .invalid)
    (h : sigMatch t = false) : is_draft_error st t = .ok (false, st) := by
  cases t with
  | invalid => exact absurd rfl hne
  | obj m =>
      cases m with
      | none => simp [is_draft_error]
      | some s =>
          simp only [sigMatch] at h
          simp [is_draft_error, h]

theorem is_draft_error_state (st : GHState) (t : RespText) (b : Bool) (st1 : GHState)
    (h : is_draft_error st t = .ok (b, st1)) :
    st1 = st ∨ st1 = { st with drafts_supported := false } := by
  cases t with
  | invalid => simp [is_draft_error] at h
  | obj m =>
      cases m with
      | none =>
          simp [is_draft_error] at h
          exact Or.inl h.2.symm
      | some s =>
          simp only [is_draft_error] at h
          by_cases hc : strContains (lowerStr s) draftPhrase
          · simp [hc] at h
            exact Or.inr h.2.symm
          · simp [hc] at h
            exact Or.inl h.2.symm

theorem create_pr_flag_mono (env : Env) (st : GHState) (t : String) (bs : List String)
    (d : Bool) (hb bb : String) (h : st.drafts_supported = false) :
    ((create_pr env st t bs d hb bb).2.1).drafts_supported = false := by
  cases bs with
  | nil => simpa [create_pr]
  | cons b0 rest =>
      simp only [create_pr]
      by_cases h0 : (env.createResp 0).status = 201
      · simp only [h0, if_true, afterSuccess]
        cases publishAll env (env.createResp 0).number (b0 :: rest).tail <;> simpa
      · simp only [h0, if_false]
        cases hide : is_draft_error st (env.createResp 0).text with
        | error e => simpa
        | ok p =>
            obtain ⟨b, st1⟩ := p
            have hst1 : st1.drafts_supported = false := by
              rcases is_draft_error_state st _ b st1 hide with h1 | h1 <;> simp [h1, h]
            cases b with
            | false => simpa
            | true =>
                have hd : (firstData st t b0 d hb bb).draft = none := by
                  simp [firstData, h]
                rw [hd]
                simpa

theorem set_draft_noop (env : Env) (st : GHState) (pr : Nat) (d : Bool)
    (h : st.drafts_supported = false) :
    set_pr_draft_status env st pr d = (.ok (), st, []) := by
  simp [set_pr_draft_status, h]

theorem stepOp_flag_mono (env : Env) (st : GHState) (o : Op)
    (h : st.drafts_supported = false) : (stepOp env st o).drafts_supported = false := by
  cases o with
  | opCreatePr t bs d hb bb => exact create_pr_flag_mono env st t bs d hb bb h
  | opSetDraft pr d =>
      simp only [stepOp]
      rw [set_draft_noop env st pr d h]
      exact h
  | opUpdatePrTitle pr t => exact h
  | opUpdatePrBody pr b => exact h
  | opUpdateComment cid b => exact h
  | opGetIssues s => exact h
  | opPublishComment t n => exact h
  | opFindExistingPr hbr bbr => exact h
  | opParseEvent e nm => exact h

theorem run_flag_mono (ops : List (Env × Op)) (st : GHState)
    (h : st.drafts_supported = false) : (run st ops).drafts_supported = false := by
  induction ops generalizing st with
  | nil => simpa [run]
  | cons p rest ih =>
      simp only [run]
      exact ih _ (stepOp_flag_mono p.1 st p.2 h)

theorem publishAll_ok (env : Env) (pr : Nat) :
    ∀ (l : List String) (ids : List CommentId), publishAll env pr l = .ok ids →
      ids = l.map (fun b => CommentId.id ((env.commentResp b pr).id)) ∧
      ∀ b ∈ l, publish_comment env b pr = some ((env.commentResp b pr).id) := by
  intro l
  induction l with
  | nil =>
      intro ids h
      simp [publishAll] at h
      simp [h.symm]
  | cons b rest ih =>
      intro ids h
      simp only [publishAll] at h
      cases hp : publish_comment env b pr with
      | none => rw [hp] at h; exact absurd h (by simp)
      | some i =>
          rw [hp] at h
          cases hr : publishAll env pr rest with
          | error e => rw [hr] at h; exact absurd h (by simp)
          | ok ids0 =>
              rw [hr] at h
              simp only [Except.ok.injEq] at h
              obtain ⟨hmap, hall⟩ := ih ids0 hr
              have hi : i = (env.commentResp b pr).id := by
                simp only [publish_comment] at hp
                by_cases hs : (env.commentResp b pr).status = 201
                · simp [hs] at hp
                  exact hp.symm
                · simp [hs] at hp
              constructor
              · rw [← h, hi, hmap]
                simp
              · intro x hx
                rcases List.mem_cons.mp hx with h1 | h2
                · rw [h1, hp, hi]
                · exact hall x h2

/-! ## Claim C1 -/

/-- C1: for every non-empty body list, a successful `create_pr` returns one
comment identifier per input body, in input order, with the sentinel exactly
at index 0 and, at every index `i ≥ 1`, the id returned by publishing
`bodies[i]` as a comment on the new PR. -/
theorem c1_create_pr_comment_ids (env : Env) (st : GHState) (t : String)
    (bodies : List String) (d : Bool) (hb bb : String) (n : Nat) (ids : List CommentId)
    (h : (create_pr env st t bodies d hb bb).1 = .ok (n, ids)) :
    bodies ≠ [] ∧ ids.length = bodies.length ∧
    ids = CommentId.sentinel ::
      bodies.tail.map (fun b => CommentId.id ((env.commentResp b n).id)) ∧
    ∀ b ∈ bodies.tail, publish_comment env b n = some ((env.commentResp b n).id) := by
  cases bodies with
  | nil => simp [create_pr] at h
  | cons b0 rest =>
      simp only [create_pr] at h
      split at h
      · simp only [afterSuccess] at h
        split at h
        · simp at h
        · next ids0 hpa =>
            simp only [Except.ok.injEq, Prod.mk.injEq] at h
            obtain ⟨hn, hids⟩ := h
            obtain ⟨hmap, hall⟩ := publishAll_ok env _ _ ids0 hpa
            subst hn
            refine ⟨by simp, ?_, ?_, ?_⟩
            · rw [← hids, hmap]; simp
            · rw [← hids, hmap]
            · exact hall
      · split at h
        · simp at h
        · next b st1 heq =>
            split at h
            · split at h
              · simp at h
              · split at h
                · simp only [afterSuccess] at h
                  split at h
                  · simp at h
                  · next ids0 hpa =>
                      simp only [Except.ok.injEq, Prod.mk.injEq] at h
                      obtain ⟨hn, hids⟩ := h
                      obtain ⟨hmap, hall⟩ := publishAll_ok env _ _ ids0 hpa
                      subst hn
                      refine ⟨by simp, ?_, ?_, ?_⟩
                      · rw [← hids, hmap]; simp
                      · rw [← hids, hmap]
                      · exact hall
                · simp at h
            · simp at h

def envDefault : Env where
  createResp := fun _ => { status := 201, text := .obj none, number := 1 }
  commentResp := fun b _ => { status := 201, id := "cid-" ++ b }
  nodeIdResp := fun _ => { status := 200, node_id := "node-1" }
  graphqlResp := fun _ _ => { status := 200 }
  patchResp := fun _ _ => { status := 200 }
  updateCommentResp := fun _ _ => { status := 200 }
  issuesResp := fun _ => { status := 200, body := [] }
  commentsResp := fun _ => { status := 200, body := .arr [] }
  pullsResp := fun _ _ => { status := 200, body := [] }

/-- Environment for the C1 witness: creation succeeds with PR number 7. -/
def envC1 : Env :=
  { envDefault with createResp := fun _ => { status := 201, text := .obj none, number := 7 } }

/-- Witness for C1 at a concrete three-body call. -/
theorem c1_witness :
    (["A", "B", "C"] : List String) ≠ [] ∧
    ([CommentId.sentinel, CommentId.id "cid-B", CommentId.id "cid-C"].length
      = (["A", "B", "C"] : List String).length) ∧
    ([CommentId.sentinel, CommentId.id "cid-B", CommentId.id "cid-C"]
      = CommentId.sentinel ::
          (["A", "B", "C"] : List String).tail.map
            (fun b => CommentId.id ((envC1.commentResp b 7).id))) ∧
    publish_comment envC1 "B" 7 = some ((envC1.commentResp "B" 7).id) := by
  have h := c1_create_pr_comment_ids envC1 initState "t" ["A", "B", "C"] true "h" "m" 7
    [CommentId.sentinel, CommentId.id "cid-B", CommentId.id "cid-C"] rfl
  exact ⟨h.1, h.2.1, h.2.2.1, h.2.2.2 "B" (by simp)⟩

/-! ## Claim C2 -/

/-- C2: when the instance still believes drafts supported, a first creation
attempt rejected with the drafts-not-supported signature leads to exactly two
creation requests — the second identical to the first minus the draft field —
and the draft-support flag is false afterward and stays false over any later
sequence of operations on the instance. -/
theorem c2_draft_fallback (env : Env) (st : GHState) (t b0 : String) (rest : List String)
    (d : Bool) (hb bb : String)
    (hflag : st.drafts_supported = true)
    (h0 : (env.createResp 0).status ≠ 201)
    (hsig : sigMatch (env.createResp 0).text = true) :
    (create_pr env st t (b0 :: rest) d hb bb).2.2 =
      [firstData st t b0 d hb bb, { firstData st t b0 d hb bb with draft := none }] ∧
    ((create_pr env st t (b0 :: rest) d hb bb).2.1).drafts_supported = false ∧
    ∀ ops : List (Env × Op),
      (run (create_pr env st t (b0 :: rest) d hb bb).2.1 ops).drafts_supported = false := by
  have hide := is_draft_error_sig_true st (env.createResp 0).text hsig
  have hd : (firstData st t b0 d hb bb).draft = some (if d then "true" else "false") := by
    simp [firstData, hflag]
  have hsnd : (create_pr env st t (b0 :: rest) d hb bb).2 =
      ({ st with drafts_supported := false },
        [firstData st t b0 d hb bb, { firstData st t b0 d hb bb with draft := none }]) := by
    by_cases h2 : (env.createResp 1).status = 201
    · cases hpa : publishAll env (env.createResp 1).number rest with
      | error e => simp [create_pr, if_neg h0, hide, hd, h2, hpa, afterSuccess]
      | ok ids => simp [create_pr, if_neg h0, hide, hd, h2, hpa, afterSuccess]
    · simp [create_pr, if_neg h0, hide, hd, h2]
  refine ⟨?_, ?_, ?_⟩
  · rw [hsnd]
  · rw [hsnd]
  · intro ops
    rw [hsnd]
    exact run_flag_mono ops _ rfl

/-- PR-creation response carrying the drafts-not-supported signature. -/
def respDraftErr : CreateResp :=
  { status := 422
    text := .obj (some "Draft pull requests are not supported on this repository.")
    number := 0 }

/-- Environment for the C2 witness: first creation attempt rejected with the
draft signature, the retry accepted. -/
def envC2 : Env :=
  { envDefault with
    createResp := fun i =>
      if i = 0 then respDraftErr else { status := 201, text := .obj none, number := 7 } }

/-- Witness for C2 at a concrete call on a fresh instance. -/
theorem c2_witness :
    (create_pr envC2 initState "t" ["b"] true "h" "m").2.2 =
      [firstData initState "t" "b" true "h" "m",
        { firstData initState "t" "b" true "h" "m" with draft := none }] ∧
    ((create_pr envC2 initState "t" ["b"] true "h" "m").2.1).drafts_supported = false ∧
    (run (create_pr envC2 initState "t" ["b"] true "h" "m").2.1 []).drafts_supported = false := by
  have h := c2_draft_fallback envC2 initState "t" "b" [] true "h" "m" rfl (by decide) (by decide)
  exact ⟨h.1, h.2.1, h.2.2 []⟩

/-! ## Claim C3 -/

/-- Did this call return a value (rather than raise)? -/
def exceptIsOk {α : Type} : Except Err α → Bool
  | .ok _ => true
  | .error _ => false

/-- C3: a first creation attempt rejected without the draft signature raises
after exactly one creation request; a rejected forced retry raises after
exactly the two creation requests, issuing no further ones. -/
theorem c3_fatal_rejection (env : Env) (st : GHState) (t b0 : String) (rest : List String)
    (d : Bool) (hb bb : String) :
    ((env.createResp 0).status ≠ 201 → sigMatch (env.createResp 0).text = false →
      exceptIsOk (create_pr env st t (b0 :: rest) d hb bb).1 = false ∧
      (create_pr env st t (b0 :: rest) d hb bb).2.2 = [firstData st t b0 d hb bb]) ∧
    (st.drafts_supported = true → (env.createResp 0).status ≠ 201 →
      sigMatch (env.createResp 0).text = true → (env.createResp 1).status ≠ 201 →
      exceptIsOk (create_pr env st t (b0 :: rest) d hb bb).1 = false ∧
      (create_pr env st t (b0 :: rest) d hb bb).2.2 =
        [firstData st t b0 d hb bb, { firstData st t b0 d hb bb with draft := none }]) := by
  constructor
  · intro h0 hsigf
    by_cases hinv : (env.createResp 0).text = .invalid
    · constructor <;> simp [create_pr, if_neg h0, hinv, is_draft_error, exceptIsOk]
    · have hide := is_draft_error_sig_false st (env.createResp 0).text hinv hsigf
      constructor <;> simp [create_pr, if_neg h0, hide, exceptIsOk]
  · intro hflag h0 hsig h2
    have hide := is_draft_error_sig_true st (env.createResp 0).text hsig
    have hd : (firstData st t b0 d hb bb).draft = some (if d then "true" else "false") := by
      simp [firstData, hflag]
    constructor <;> simp [create_pr, if_neg h0, hide, hd, if_neg h2, exceptIsOk]

/-- Environment for the first C3 case: creation rejected without the draft
signature. -/
def envC3a : Env :=
  { envDefault with
    createResp := fun _ => { status := 400, text := .obj (some "Validation Failed"), number := 0 } }

/-- Environment for the second C3 case: draft-signature rejection, then a
rejected retry. -/
def envC3b : Env :=
  { envDefault with
    createResp := fun i =>
      if i = 0 then respDraftErr else { status := 500, text := .obj none, number := 0 } }

/-- Witness for C3 at concrete calls for both rejection cases. -/
theorem c3_witness :
    (exceptIsOk (create_pr envC3a initState "t" ["b"] true "h" "m").1 = false ∧
      (create_pr envC3a initState "t" ["b"] true "h" "m").2.2 =
        [firstData initState "t" "b" true "h" "m"]) ∧
    (exceptIsOk (create_pr envC3b initState "t" ["b"] true "h" "m").1 = false ∧
      (create_pr envC3b initState "t" ["b"] true "h" "m").2.2 =
        [firstData initState "t" "b" true "h" "m",
          { firstData initState "t" "b" true "h" "m" with draft := none }]) :=
  ⟨(c3_fatal_rejection envC3a initState "t" "b" [] true "h" "m").1 (by decide) (by decide),
   (c3_fatal_rejection envC3b initState "t" "b" [] true "h" "m").2 rfl (by decide) (by decide)
     (by decide)⟩

/-! ## Claim C4 -/

/-- C4: once the draft-support flag is false it stays false over any later
sequence of operations, and every `set_pr_draft_status` call on such a state
returns successfully with no network request and no state change. -/
theorem c4_flag_sticky_noop (st : GHState) (h : st.drafts_supported = false) :
    (∀ ops : List (Env × Op), (run st ops).drafts_supported = false) ∧
    (∀ (env : Env) (pr : Nat) (d : Bool),
      set_pr_draft_status env st pr d = (.ok (), st, [])) :=
  ⟨fun ops => run_flag_mono ops st h, fun env pr d => set_draft_noop env st pr d h⟩

/-- Witness for C4 at a concrete flag-false state. -/
theorem c4_witness :
    (run { drafts_supported := false, pr_node_id := none }
        [(envDefault, Op.opSetDraft 1 true)]).drafts_supported = false ∧
    set_pr_draft_status envDefault { drafts_supported := false, pr_node_id := none } 2 false =
      (.ok (), { drafts_supported := false, pr_node_id := none }, []) := by
  have h := c4_flag_sticky_noop { drafts_supported := false, pr_node_id := none } rfl
  exact ⟨h.1 [(envDefault, Op.opSetDraft 1 true)], h.2 envDefault 2 false⟩

/-! ## Claim C10 -/

/-- C10: when the draft-support flag is already false (so the request carries
no draft field) and the rejection text nonetheless matches the draft
signature, `create_pr` raises a `KeyError` deleting the absent draft field
and issues no retry: the single first request is the whole trace. -/
theorem c10_keyerror_no_retry (env : Env) (st : GHState) (t b0 : String)
    (rest : List String) (d : Bool) (hb bb : String)
    (hflag : st.drafts_supported = false)
    (h0 : (env.createResp 0).status ≠ 201)
    (hsig : sigMatch (env.createResp 0).text = true) :
    (create_pr env st t (b0 :: rest) d hb bb).1 = .error (.keyError "draft") ∧
    (create_pr env st t (b0 :: rest) d hb bb).2.2 = [firstData st t b0 d hb bb] ∧
    (firstData st t b0 d hb bb).draft = none := by
  have hide := is_draft_error_sig_true st (env.createResp 0).text hsig
  have hd : (firstData st t b0 d hb bb).draft = none := by simp [firstData, hflag]
  refine ⟨?_, ?_, hd⟩ <;> simp [create_pr, if_neg h0, hide, hd]

/-- Witness for C10: a flag-false instance receiving the draft-signature
rejection. -/
theorem c10_witness :
    (create_pr envC2 { drafts_supported := false, pr_node_id := none }
        "t" ["b"] true "h" "m").1 = .error (.keyError "draft") ∧
    (create_pr envC2 { drafts_supported := false, pr_node_id := none }
        "t" ["b"] true "h" "m").2.2 =
      [firstData { drafts_supported := false, pr_node_id := none } "t" "b" true "h" "m"] ∧
    (firstData { drafts_supported := false, pr_node_id := none }
        "t" "b" true "h" "m").draft = none :=
  c10_keyerror_no_retry envC2 { drafts_supported := false, pr_node_id := none }
    "t" "b" [] true "h" "m" rfl (by decide) (by decide)

/-! ## Claim C5 -/

theorem set_draft_cached (env : Env) (st : GHState) (pr : Nat) (d : Bool) (nid : String)
    (h : st.pr_node_id = some nid) :
    countFetches (set_pr_draft_status env st pr d).2.2 = 0 ∧
    (set_pr_draft_status env st pr d).2.1.pr_node_id = some nid := by
  cases hf : st.drafts_supported with
  | false => simp [set_pr_draft_status, hf, h, countFetches]
  | true =>
      by_cases hg : (env.graphqlResp d nid).status = 200 <;>
        simp [set_pr_draft_status, hf, h, draftMutationStep, hg, countFetches, isFetch,
          List.countP_cons]

theorem runDraft_cached (env : Env) :
    ∀ (calls : List (Nat × Bool)) (st : GHState) (nid : String),
      st.pr_node_id = some nid → countFetches (runDraft env st calls).2 = 0 := by
  intro calls
  induction calls with
  | nil => intro st nid h; simp [runDraft, countFetches]
  | cons c cs ih =>
      intro st nid h
      obtain ⟨h0, h1⟩ := set_draft_cached env st c.1 c.2 nid h
      simp only [runDraft]
      rw [countFetches_append, h0, ih _ nid h1]

theorem runDraft_fetch_bound (env : Env) (pr : Nat) :
    ∀ (calls : List (Nat × Bool)) (st : GHState),
      (∀ c ∈ calls, c.1 = pr) → (env.nodeIdResp pr).status = 200 →
      countFetches (runDraft env st calls).2 ≤ 1 := by
  intro calls
  induction calls with
  | nil => intro st _ _; simp [runDraft, countFetches]
  | cons c cs ih =>
      intro st hpr hok
      have hc : c.1 = pr := hpr c (by simp)
      have hcs : ∀ x ∈ cs, x.1 = pr := fun x hx => hpr x (by simp [hx])
      simp only [runDraft]
      rw [countFetches_append]
      cases hnode : st.pr_node_id with
      | some nid =>
          obtain ⟨h0, h1⟩ := set_draft_cached env st c.1 c.2 nid hnode
          rw [h0, runDraft_cached env cs _ nid h1]
          simp
      | none =>
          cases hf : st.drafts_supported with
          | false =>
              rw [set_draft_noop env st c.1 c.2 hf]
              simpa [countFetches] using ih st hcs hok
          | true =>
              have hfs : (env.nodeIdResp c.1).status = 200 := by rw [hc]; exact hok
              have hget : get_pull_request_node_id env c.1 =
                  .ok (env.nodeIdResp c.1).node_id := by
                simp [get_pull_request_node_id, hfs]
              have hset : countFetches (set_pr_draft_status env st c.1 c.2).2.2 = 1 ∧
                  (set_pr_draft_status env st c.1 c.2).2.1.pr_node_id =
                    some (env.nodeIdResp c.1).node_id := by
                by_cases hg : (env.graphqlResp c.2 (env.nodeIdResp c.1).node_id).status = 200 <;>
                  simp [set_pr_draft_status, hf, hnode, hget, draftMutationStep, hg,
                    countFetches, isFetch, List.countP_cons]
              obtain ⟨h0, h1⟩ := hset
              rw [h0, runDraft_cached env cs _ _ h1]

/-- Environment for the C5 counterexample: every node-id fetch fails. -/
def envC5 : Env :=
  { envDefault with nodeIdResp := fun _ => { status := 500, node_id := "" } }

/-- C5 counterexample: with failing node-id fetches, two draft-status calls
on one fresh instance with the same PR number issue two identifier fetches,
so the identifier is not fetched at most once. -/
theorem c5_counterexample :
    ¬ countFetches (runDraft envC5 initState [(1, true), (1, true)]).2 ≤ 1 := by decide

/-- C5 (amended): across any number of draft-status calls with the same PR
number, at most one identifier fetch occurs provided the fetch for that PR
succeeds (a failed fetch raises without caching, so a later call may fetch
again); and once the identifier is cached, every later call reuses it and
issues zero fetches. -/
theorem c5_node_id_fetched_once (env : Env) (pr : Nat) (calls : List (Nat × Bool))
    (hpr : ∀ c ∈ calls, c.1 = pr) (st : GHState) :
    ((env.nodeIdResp pr).status = 200 →
      countFetches (runDraft env st calls).2 ≤ 1) ∧
    (∀ nid, st.pr_node_id = some nid → countFetches (runDraft env st calls).2 = 0) :=
  ⟨fun hok => runDraft_fetch_bound env pr calls st hpr hok,
   fun nid h => runDraft_cached env calls st nid h⟩

/-- Witness for C5 (amended) at concrete call sequences. -/
theorem c5_witness :
    countFetches (runDraft envDefault initState [(1, true), (1, false)]).2 ≤ 1 ∧
    countFetches (runDraft envDefault { drafts_supported := true, pr_node_id := some "n" }
        [(1, true)]).2 = 0 := by
  have h1 := c5_node_id_fetched_once envDefault 1 [(1, true), (1, false)] (by simp) initState
  have h2 := c5_node_id_fetched_once envDefault 1 [(1, true)] (by simp)
      { drafts_supported := true, pr_node_id := some "n" }
  exact ⟨h1.1 rfl, h2.2 "n" rfl⟩

/-! ## Claim C6 -/

/-- Environment for the C6 counterexample: every PATCH is rejected. -/
def envC6 : Env :=
  { envDefault with
    patchResp := fun _ _ => { status := 500 }
    updateCommentResp := fun _ _ => { status := 500 } }

/-- C6 counterexample: with the platform rejecting every PATCH, the three
update operations still return success — a non-success response does not
propagate to the caller as a failure. -/
theorem c6_counterexample :
    (envC6.patchResp 1 [("title", "t")]).status ≠ 200 ∧
    update_pr_title envC6 1 "t" = .ok () ∧
    update_pr_body envC6 1 "b" = .ok () ∧
    (envC6.updateCommentResp "c" "b").status ≠ 200 ∧
    update_comment envC6 "c" "b" = .ok () := by
  refine ⟨by decide, rfl, rfl, by decide, rfl⟩

/-- C6 (amended): a non-success platform response to `update_pr_title`,
`update_pr_body` or `update_comment` is logged and swallowed — the call
returns success to the caller instead of raising. -/
theorem c6_update_failures_swallowed (env : Env) (pr : Nat) (t b cid s : String) :
    update_pr_title env pr t = .ok () ∧
    update_pr_body env pr b = .ok () ∧
    update_comment env cid s = .ok () := by
  refine ⟨?_, ?_, ?_⟩ <;>
    simp only [update_pr_title, update_pr_body, update_comment, patch_pr] <;>
    split <;> rfl

/-! ## Claim C8 -/

/-- C8: for every state argument, a non-2xx issue-listing response makes
`get_issues` return the empty list without raising. -/
theorem c8_get_issues_degraded (env : Env) (s : String)
    (h : ¬(200 ≤ (env.issuesResp s).status ∧ (env.issuesResp s).status < 300)) :
    get_issues env s = .ok [] := by
  have hne : (env.issuesResp s).status ≠ 200 := by
    intro he
    exact h ⟨by omega, by omega⟩
  simp [get_issues, hne]

/-- Environment for the C8 witness: issue listing rejected with a 500. -/
def envC8 : Env :=
  { envDefault with issuesResp := fun _ => { status := 500, body := [] } }

/-- Witness for C8 at a concrete failing listing. -/
theorem c8_witness : get_issues envC8 "open" = .ok [] :=
  c8_get_issues_degraded envC8 "open" (by decide)

/-! ## Claim C7 -/

/-- C7 counterexample: a payload classified as a comment event whose issue
object has no embedded `pull_request` reference raises a `KeyError` instead
of yielding an event with an optional/none field. -/
theorem c7_counterexample :
    parse_event envDefault
      (.obj [("action", .str "comment"), ("issue", .obj [])]) "issue_comment" =
      .error (.keyError "pull_request") := rfl

/-- C7 (amended): for payloads classified as label events, an embedded
pull-request or issue reference absent from the payload is represented as
none in the resulting event — never defaulted and never a failure; for
comment events the embedded issue's pull-request reference is accessed
unconditionally, so its absence is an unhandled `KeyError`. -/
theorem c7_label_absent_optional (env : Env) (e : JVal) (en : String) (lv : JVal)
    (nm : String)
    (hpush : en ≠ "push")
    (hact : jGet e "action" = .ok (.str "labeled"))
    (hpr : e.hasKey "pull_request" = false)
    (hiss : e.hasKey "issue" = false)
    (hlabel : jGet e "label" = .ok lv)
    (hname : jGet lv "name" = .ok (.str nm)) :
    parse_event env e en = .ok (.label none none nm) := by
  simp [parse_event, hpush, hact, hpr, hiss, hlabel, hname, asStr]

/-- Witness for C7 (amended) at a concrete label payload carrying neither a
pull-request nor an issue reference. -/
theorem c7_witness :
    parse_event envDefault
      (.obj [("action", .str "labeled"), ("label", .obj [("name", .str "summarize")])])
      "issues" = .ok (.label none none "summarize") :=
  c7_label_absent_optional envDefault
    (.obj [("action", .str "labeled"), ("label", .obj [("name", .str "summarize")])])
    "issues" (.obj [("name", .str "summarize")]) "summarize"
    (by decide) rfl rfl rfl rfl rfl

/-! ## Claim C9 -/

/-- A `body` payload field that is either JSON null or a string. -/
def optBody : Option String → JVal
  | none => .null
  | some s => .str s

/-- A comment JSON object as `_extract_issue` reads it. -/
def mkCommentJson (b : Option String) (login : String) : JVal :=
  .obj [("body", optBody b), ("user", .obj [("login", .str login)])]

/-- An issue JSON object as `_extract_issue` reads it. -/
def mkIssueJson (curl : String) (b : Option String) (login ttl ts : String)
    (number : Int) : JVal :=
  .obj [("comments_url", .str curl), ("body", optBody b),
    ("user", .obj [("login", .str login)]), ("number", .num number),
    ("title", .str ttl), ("updated_at", .str ts)]

theorem pyOrEmpty_str (s : String) : pyOrEmpty (.str s) = .str s := by
  simp only [pyOrEmpty, pyTruthy]
  split
  · rfl
  · next hfalse =>
      have hb : (s == "") = true := by
        cases hbe : (s == "") with
        | true => rfl
        | false => exact absurd (by simp [hbe]) hfalse
      rw [eq_of_beq hb]

theorem extractMessage_mk (b : Option String) (login : String) :
    extractMessage (mkCommentJson b login) = .ok { body := b.getD "", author := login } := by
  cases b with
  | none => rfl
  | some s =>
      have h : extractMessage (mkCommentJson (some s) login) =
          (match asStr (pyOrEmpty (.str s)) with
            | .error e => .error e
            | .ok bs => .ok { body := bs, author := login }) := rfl
      rw [h, pyOrEmpty_str]
      rfl

theorem extractMessage_mkIssue (curl : String) (b : Option String) (login ttl ts : String)
    (number : Int) :
    extractMessage (mkIssueJson curl b login ttl ts number) =
      .ok { body := b.getD "", author := login } := by
  cases b with
  | none => rfl
  | some s =>
      have h : extractMessage (mkIssueJson curl (some s) login ttl ts number) =
          (match asStr (pyOrEmpty (.str s)) with
            | .error e => .error e
            | .ok bs => .ok { body := bs, author := login }) := rfl
      rw [h, pyOrEmpty_str]
      rfl

theorem extractComments_mk (cs : List (Option String × String)) :
    extractComments (cs.map (fun p => mkCommentJson p.1 p.2)) =
      .ok (cs.map (fun p => ({ body := p.1.getD "", author := p.2 } : Message))) := by
  induction cs with
  | nil => rfl
  | cons c cs ih => simp [extractComments, extractMessage_mk, ih]

/-- C9 (amended): extraction of an issue whose `body` key is present (null,
empty, or a string) yields one message per text source in order — the
issue's own body, normalized to a string with null becoming the empty
string, as message zero authored by the issue's author, then one message per
comment, oldest first, each normalized the same way — so the message count
is one plus the number of comments. -/
theorem c9_issue_messages (env : Env) (curl : String) (ib : Option String)
    (il ttl ts : String) (num : Int) (cs : List (Option String × String))
    (hpre : strStarts curl apiPrefix = true)
    (henv : env.commentsResp curl =
      { status := 200, body := .arr (cs.map (fun p => mkCommentJson p.1 p.2)) }) :
    extract_issue env (mkIssueJson curl ib il ttl ts num) =
      .ok { number := num, title := ttl, author := il, timestamp := ts,
            messages := { body := ib.getD "", author := il } ::
              cs.map (fun p => ({ body := p.1.getD "", author := p.2 } : Message)) } ∧
    ({ body := ib.getD "", author := il } ::
        cs.map (fun p => ({ body := p.1.getD "", author := p.2 } : Message))).length
      = 1 + cs.length := by
  constructor
  · have h1 : extract_issue env (mkIssueJson curl ib il ttl ts num) =
        (if !strStarts curl apiPrefix then .error .assertionError
         else if 400 ≤ (env.commentsResp curl).status then .error .httpError
         else
           match (env.commentsResp curl).body with
           | .arr cjs =>
               (match extractMessage (mkIssueJson curl ib il ttl ts num) with
                | .error e => .error e
                | .ok bm =>
                    match extractComments cjs with
                    | .error e => .error e
                    | .ok cmts =>
                        .ok { number := num, title := ttl, author := il, timestamp := ts,
                              messages := bm :: cmts })
           | _ => .error .typeError) := rfl
    rw [h1, hpre, henv]
    simp [extractMessage_mkIssue, extractComments_mk]
  · simp [Nat.add_comm]

/-- An issue JSON object with no `body` key at all. -/
def issueNoBody : JVal :=
  .obj [("comments_url", .str "https://api.github.com/repos/o/r/issues/1/comments"),
    ("user", .obj [("login", .str "alice")]), ("number", .num 1),
    ("title", .str "t"), ("updated_at", .str "z")]

/-- C9 counterexample: an issue payload whose `body` key is missing makes
extraction raise a `KeyError` — the missing body is not normalized to an
empty-string message. -/
theorem c9_counterexample :
    extract_issue envDefault issueNoBody = .error (.keyError "body") := rfl

/-- Comments URL used by the C9 witness. -/
def curlC9 : String := "https://api.github.com/repos/o/r/issues/9/comments"

/-- Environment for the C9 witness: the comments fetch returns a null-bodied
comment, an empty-bodied comment and a regular comment. -/
def envC9 : Env :=
  { envDefault with
    commentsResp := fun _ =>
      { status := 200
        body := .arr ([((none : Option String), "bob"), (some "", "carol"),
            (some "hi", "dan")].map (fun p => mkCommentJson p.1 p.2)) } }

/-- Witness for C9 (amended): a null issue body, one null-bodied comment,
one empty-bodied comment and one regular comment. -/
theorem c9_witness :
    extract_issue envC9 (mkIssueJson curlC9 none "alice" "t" "z" 1) =
      .ok { number := 1, title := "t", author := "alice", timestamp := "z",
            messages := [{ body := "", author := "alice" }, { body := "", author := "bob" },
              { body := "", author := "carol" }, { body := "hi", author := "dan" }] } ∧
    ([{ body := "", author := "alice" }, { body := "", author := "bob" },
        { body := "", author := "carol" }, { body := "hi", author := "dan" }] :
      List Message).length = 1 + 3 := by
  have h := c9_issue_messages envC9 curlC9 none "alice" "t" "z" 1
    [(none, "bob"), (some "", "carol"), (some "hi", "dan")] (by decide) rfl
  exact ⟨h.1, h.2⟩
